import Mathlib

/-!
# Verification of the py_trees blackboard module

Shallow embedding of `src/py_trees/src/py_trees/blackboard.py`:
the borg-style `Blackboard` shared store and the three adapter
behaviours `ClearBlackboardVariable`, `SetBlackboardVariable` and
`CheckBlackboardVariable`, together with proofs of the specified
storage/access and check-decision properties.

Modelling decisions:
* Python attribute values are modelled by the inductive type `Value`;
  the constructor `Value.none` is Python's `None`.
* The borg shared state (`Blackboard.__shared_state`, a dict aliased
  into every instance's `__dict__`) is modelled as one process-wide
  `Store`, a map from attribute name to `Option Value` (`Option.none`
  means the attribute is absent).  A `Blackboard` handle carries no
  state of its own — exactly the borg pattern, where `__init__`
  rebinds the instance dict to the single shared dict — and the
  shared store is threaded explicitly through each operation.
* `getattr`/`delattr` raise `AttributeError` on a missing attribute;
  they are modelled with `Except Unit`, the error constructor standing
  for the raised `AttributeError`.
* A behaviour's mutable `feedback_message` field is modelled as part
  of the result of `update`: `update` returns the (unchanged) shared
  store, the `Status`, and the feedback message it assigned.
-/

set_option autoImplicit false

/-- Modelled from the spec: the tri-state behaviour outcome
`Status ∈ \x7bSUCCESS, FAILURE, RUNNING\x7d` imported from
`py_trees.common`, whose source file is not part of this repository
snapshot. -/
inductive Status where
  | SUCCESS
  | FAILURE
  | RUNNING
  deriving DecidableEq, Repr

/-- A dynamically typed Python value as stored on the blackboard.
`Value.none` is Python's `None`. -/
inductive Value where
  | none
  | bool (b : Bool)
  | int (n : Int)
  | str (s : String)
  deriving DecidableEq, Repr

/-- Python's `"%s" % value` rendering, as used by the feedback-message
format strings in `CheckBlackboardVariable.update`. -/
def Value.pystr : Value → String
  | Value.none => "None"
  | Value.bool b => if b then "True" else "False"
  | Value.int n => toString n
  | Value.str s => s

/-- The borg shared state: one process-wide map from attribute name to
stored value; `Option.none` means the attribute is absent. -/
abbrev Store : Type := String → Option Value

/-- A store on which no attribute was ever set. -/
def emptyStore : Store := fun _ => Option.none

/-- Python `getattr(blackboard, name)`: the stored value, or a raised
`AttributeError` (the `Except.error` case) when absent. -/
def getattr (shared : Store) (name : String) : Except Unit Value :=
  match shared name with
  | Option.some v => Except.ok v
  | Option.none => Except.error ()

/-- Python `hasattr(blackboard, name)`: a total membership test. -/
def hasattr (shared : Store) (name : String) : Bool :=
  (shared name).isSome

/-- Python `setattr(blackboard, name, value)`: insert or replace. -/
def setattr (shared : Store) (name : String) (value : Value) : Store :=
  fun n => if n = name then Option.some value else shared n

/-- Python `delattr(blackboard, name)`: removes the attribute, or
raises `AttributeError` (the `Except.error` case) when absent. -/
def delattr (shared : Store) (name : String) : Except Unit Store :=
  match shared name with
  | Option.some _ => Except.ok (fun n => if n = name then Option.none else shared n)
  | Option.none => Except.error ()

/-- A `Blackboard` handle.  The borg pattern gives every instance the
same `__dict__` (the class-level `__shared_state`), so a handle holds
no state of its own; the shared store is passed explicitly to each
method. -/
structure Blackboard where

/-- `Blackboard()` — constructing a handle; it merely aliases the
shared state, so the handle itself is trivial. -/
def Blackboard.init : Blackboard := {}

/-- `Blackboard.set(name, value, overwrite=True)`: when `overwrite` is
false and the attribute exists, return `False` leaving the store
untouched; otherwise store the value and return `True`. -/
def Blackboard.set (_self : Blackboard) (shared : Store) (name : String)
    (value : Value) (overwrite : Bool) : Store × Bool :=
  if overwrite = false then
    match getattr shared name with
    | Except.ok _ => (shared, false)
    | Except.error _ => (setattr shared name value, true)
  else
    (setattr shared name value, true)

/-- `Blackboard.get(name)`: the stored value, or `None` when the
attribute is absent (the `AttributeError` is caught). -/
def Blackboard.get (_self : Blackboard) (shared : Store) (name : String) : Value :=
  match getattr shared name with
  | Except.ok v => v
  | Except.error _ => Value.none

/-- Configuration of `ClearBlackboardVariable` (a `behaviours.Success`
subclass): the behaviour name and the variable to clear. -/
structure ClearBlackboardVariable where
  name : String
  variable_name : String

/-- `ClearBlackboardVariable.initialise`: `delattr` the variable,
swallowing the `AttributeError` when it is already absent. -/
def ClearBlackboardVariable.initialise (self : ClearBlackboardVariable)
    (shared : Store) : Store :=
  match delattr shared self.variable_name with
  | Except.ok shared2 => shared2
  | Except.error _ => shared

/-- Configuration of `SetBlackboardVariable` (a `behaviours.Success`
subclass): the behaviour name, the variable to set and the value to
store (`None` by default in the Python constructor). -/
structure SetBlackboardVariable where
  name : String
  variable_name : String
  variable_value : Value

/-- `SetBlackboardVariable.initialise`:
`self.blackboard.set(variable_name, variable_value, overwrite=True)`. -/
def SetBlackboardVariable.initialise (self : SetBlackboardVariable)
    (shared : Store) : Store :=
  (Blackboard.set Blackboard.init shared self.variable_name self.variable_value true).1

/-- Configuration of `CheckBlackboardVariable`: behaviour name,
variable to check, expected value (`None` means presence-only check)
and the `invert` flag. -/
structure CheckBlackboardVariable where
  name : String
  variable_name : String
  expected_value : Value
  invert : Bool

/-- `CheckBlackboardVariable.update`: the decision procedure of the
check behaviour.  Returns the shared store (which it never mutates),
the `Status`, and the `feedback_message` it assigns.  Follows the
Python source branch for branch, each message the rendering of the
corresponding Python format string. -/
def CheckBlackboardVariable.update (self : CheckBlackboardVariable)
    (shared : Store) : Store × Status × String :=
  if hasattr shared self.variable_name = false then
    (shared, Status.FAILURE,
      "blackboard variable " ++ self.variable_name ++ " did not exist")
  else if self.expected_value = Value.none then
    (shared, Status.SUCCESS,
      "\x27" ++ self.variable_name ++ "\x27 exists on the blackboard (as required)")
  else
    let value := match getattr shared self.variable_name with
      | Except.ok v => v
      | Except.error _ => Value.none
    let matched_expected := value == self.expected_value
    if self.invert then
      if matched_expected = false then
        (shared, Status.SUCCESS,
          "\x27" ++ self.variable_name ++
            "\x27 did not match expected value (as required) [v: " ++
            value.pystr ++ "][e: " ++ self.expected_value.pystr ++ "]")
      else
        (shared, Status.FAILURE,
          "\x27" ++ self.variable_name ++
            "\x27 matched expected value (required otherwise) [v: " ++
            value.pystr ++ "][e: " ++ self.expected_value.pystr ++ "]")
    else
      if matched_expected then
        (shared, Status.SUCCESS,
          "\x27" ++ self.variable_name ++
            "\x27 matched expected value (as required) [v: " ++
            value.pystr ++ "][e: " ++ self.expected_value.pystr ++ "]")
      else
        (shared, Status.FAILURE,
          "\x27" ++ self.variable_name ++
            "\x27 did not match expected value (required otherwise) [v: " ++
            value.pystr ++ "][e: " ++ self.expected_value.pystr ++ "]")

/-! ## Substring containment

Used to state that a feedback message "records" a value: the value's
rendering occurs in the message as a contiguous substring. -/

/-- Whether `pat` is an initial segment of `s`. -/
def isPrefixList : List Char → List Char → Bool
  | [], _ => true
  | _ :: _, [] => false
  | a :: as, b :: bs => a == b && isPrefixList as bs

/-- Whether `pat` occurs contiguously somewhere in `s`. -/
def isSubstrList (pat : List Char) : List Char → Bool
  | [] => isPrefixList pat []
  | c :: rest => isPrefixList pat (c :: rest) || isSubstrList pat rest

/-- Whether the string `pat` occurs contiguously in the string `s`. -/
def strContains (s pat : String) : Bool :=
  isSubstrList pat.data s.data

/-! ## Basic store lemmas -/

theorem hasattr_setattr_self (shared : Store) (nm : String) (v : Value) :
    hasattr (setattr shared nm v) nm = true := by
  simp [hasattr, setattr]

theorem getattr_setattr_self (shared : Store) (nm : String) (v : Value) :
    getattr (setattr shared nm v) nm = Except.ok v := by
  simp [getattr, setattr]

theorem get_setattr_self (h : Blackboard) (shared : Store) (nm : String) (v : Value) :
    Blackboard.get h (setattr shared nm v) nm = v := by
  simp [Blackboard.get, getattr, setattr]

theorem exists_of_hasattr (shared : Store) (nm : String) (h : hasattr shared nm = true) :
    ∃ v, shared nm = Option.some v := by
  unfold hasattr at h
  exact Option.isSome_iff_exists.mp h

theorem eq_none_of_not_hasattr (shared : Store) (nm : String)
    (h : hasattr shared nm = false) : shared nm = Option.none := by
  unfold hasattr at h
  cases hv : shared nm with
  | none => rfl
  | some v => rw [hv] at h; simp at h

/-! ## Substring lemmas -/

theorem isPrefixList_append (pat t : List Char) : isPrefixList pat (pat ++ t) = true := by
  induction pat with
  | nil => rfl
  | cons a as ih => simp [isPrefixList, ih]

theorem isPrefixList_refl (pat : List Char) : isPrefixList pat pat = true := by
  simpa using isPrefixList_append pat []

theorem isSubstrList_of_isPrefixList (pat s : List Char) (h : isPrefixList pat s = true) :
    isSubstrList pat s = true := by
  cases s with
  | nil => simpa [isSubstrList] using h
  | cons c rest => simp [isSubstrList, h]

theorem isSubstrList_append_left (pat u s : List Char) (h : isSubstrList pat s = true) :
    isSubstrList pat (u ++ s) = true := by
  induction u with
  | nil => simpa using h
  | cons c cs ih => simp [isSubstrList, ih]

theorem string_data_append (a b : String) : (a ++ b).data = a.data ++ b.data := rfl

theorem strContains_append_self (u b : String) : strContains (u ++ b) b = true := by
  unfold strContains
  simp only [string_data_append]
  exact isSubstrList_append_left _ _ _
    (isSubstrList_of_isPrefixList _ _ (isPrefixList_refl _))

theorem strContains_check_msg_value (p1 vn p2 vp p3 ep p4 : String) :
    strContains (p1 ++ vn ++ p2 ++ vp ++ p3 ++ ep ++ p4) vp = true := by
  unfold strContains
  simp only [string_data_append, List.append_assoc]
  apply isSubstrList_append_left
  apply isSubstrList_append_left
  apply isSubstrList_append_left
  exact isSubstrList_of_isPrefixList _ _ (isPrefixList_append _ _)

theorem strContains_check_msg_expected (p1 vn p2 vp p3 ep p4 : String) :
    strContains (p1 ++ vn ++ p2 ++ vp ++ p3 ++ ep ++ p4) ep = true := by
  unfold strContains
  simp only [string_data_append, List.append_assoc]
  apply isSubstrList_append_left
  apply isSubstrList_append_left
  apply isSubstrList_append_left
  apply isSubstrList_append_left
  apply isSubstrList_append_left
  exact isSubstrList_of_isPrefixList _ _ (isPrefixList_append _ _)

/-! ## Claim theorems -/

/-- C5: after `set(name, value, overwrite=true)` through any handle,
`get(name)` through any other handle — an existing one or a newly
constructed `Blackboard()` — returns the value, and the `set`
operation itself is independent of which handle performed it: all
handles alias the one shared state (borg pattern). -/
theorem c5_shared_state_aliasing (h1 h2 : Blackboard) (shared : Store) (nm : String)
    (v : Value) (ow : Bool) :
    Blackboard.get h2 ((Blackboard.set h1 shared nm v true).1) nm = v ∧
    Blackboard.get Blackboard.init ((Blackboard.set h1 shared nm v true).1) nm = v ∧
    Blackboard.set h1 shared nm v ow = Blackboard.set h2 shared nm v ow := by
  refine ⟨?_, ?_, rfl⟩ <;> simp [Blackboard.set, get_setattr_self]

/-- C7: `CheckBlackboardVariable.update` is a pure predicate: for
every store and configuration it returns the store exactly unchanged,
and its status is always SUCCESS or FAILURE — never RUNNING. -/
theorem c7_check_pure_never_running (bname vn : String) (expected : Value) (inv : Bool)
    (shared : Store) :
    (CheckBlackboardVariable.update ⟨bname, vn, expected, inv⟩ shared).1 = shared ∧
    ((CheckBlackboardVariable.update ⟨bname, vn, expected, inv⟩ shared).2.1 = Status.SUCCESS ∨
     (CheckBlackboardVariable.update ⟨bname, vn, expected, inv⟩ shared).2.1 = Status.FAILURE) := by
  cases hv : shared vn with
  | none =>
    have habs : hasattr shared vn = false := by simp [hasattr, hv]
    exact ⟨by simp [CheckBlackboardVariable.update, habs],
      Or.inr (by simp [CheckBlackboardVariable.update, habs])⟩
  | some v =>
    have hpres : hasattr shared vn = true := by simp [hasattr, hv]
    by_cases hexp : expected = Value.none
    · subst hexp
      exact ⟨by simp [CheckBlackboardVariable.update, hpres],
        Or.inl (by simp [CheckBlackboardVariable.update, hpres])⟩
    · by_cases hm : v = expected <;> cases inv <;>
        constructor <;>
          simp [CheckBlackboardVariable.update, hpres, hexp, getattr, hv, hm,
            beq_iff_eq]

/-- C9 (implicit): when `expected_value` is unset (`None`), `update`
performs only the presence test and returns SUCCESS for every present
variable, regardless of the `invert` flag. -/
theorem c9_presence_only_ignores_invert (bname vn : String) (inv : Bool) (shared : Store)
    (hpres : hasattr shared vn = true) :
    (CheckBlackboardVariable.update ⟨bname, vn, Value.none, inv⟩ shared).2.1 =
      Status.SUCCESS := by
  simp [CheckBlackboardVariable.update, hpres]

/-- Witness for C9 at a concrete store, with both invert settings
reachable through the quantified `inv` (instantiated at `true`, the
interesting case). -/
theorem c9_presence_only_ignores_invert_witness :
    (CheckBlackboardVariable.update ⟨"check", "x", Value.none, true⟩
        (setattr emptyStore "x" (Value.int 5))).2.1 = Status.SUCCESS :=
  c9_presence_only_ignores_invert "check" "x" true (setattr emptyStore "x" (Value.int 5))
    (by decide)

/-- C4: for every absent name, `update` returns FAILURE regardless of
`invert` and of `expected_value`, and the diagnostic message records
that the variable did not exist. -/
theorem c4_absent_variable_fails (bname vn : String) (expected : Value) (inv : Bool)
    (shared : Store) (habs : hasattr shared vn = false) :
    (CheckBlackboardVariable.update ⟨bname, vn, expected, inv⟩ shared).2.1 = Status.FAILURE ∧
    (CheckBlackboardVariable.update ⟨bname, vn, expected, inv⟩ shared).2.2 =
      "blackboard variable " ++ vn ++ " did not exist" ∧
    strContains ((CheckBlackboardVariable.update ⟨bname, vn, expected, inv⟩ shared).2.2)
      " did not exist" = true := by
  have hu : CheckBlackboardVariable.update ⟨bname, vn, expected, inv⟩ shared =
      (shared, Status.FAILURE, "blackboard variable " ++ vn ++ " did not exist") := by
    simp [CheckBlackboardVariable.update, habs]
  refine ⟨by rw [hu], by rw [hu], ?_⟩
  rw [hu]
  exact strContains_append_self _ _

/-- Witness for C4: a never-set variable, checked with an expected
value and `invert = true`, still fails. -/
theorem c4_absent_variable_fails_witness :
    (CheckBlackboardVariable.update ⟨"check", "x", Value.int 1, true⟩ emptyStore).2.1 =
      Status.FAILURE ∧
    (CheckBlackboardVariable.update ⟨"check", "x", Value.int 1, true⟩ emptyStore).2.2 =
      "blackboard variable " ++ "x" ++ " did not exist" ∧
    strContains ((CheckBlackboardVariable.update ⟨"check", "x", Value.int 1, true⟩ emptyStore).2.2)
      " did not exist" = true :=
  c4_absent_variable_fails "check" "x" (Value.int 1) true emptyStore (by decide)

/-- C1: for a present variable and a set `expected_value`, `update`
returns SUCCESS exactly when the stored value equals the expected one
(FAILURE otherwise) under `invert = false`, and the two outcomes swap
under `invert = true`; no other status arises from these branches. -/
theorem c1_equality_decision (bname vn : String) (expected : Value) (inv : Bool)
    (shared : Store) (hpres : hasattr shared vn = true) (hexp : expected ≠ Value.none) :
    (CheckBlackboardVariable.update ⟨bname, vn, expected, inv⟩ shared).2.1 =
      if Blackboard.get Blackboard.init shared vn = expected then
        (if inv then Status.FAILURE else Status.SUCCESS)
      else
        (if inv then Status.SUCCESS else Status.FAILURE) := by
  obtain ⟨v, hv⟩ := exists_of_hasattr shared vn hpres
  have hget : Blackboard.get Blackboard.init shared vn = v := by
    simp [Blackboard.get, getattr, hv]
  rw [hget]
  by_cases hm : v = expected <;> cases inv <;>
    simp [CheckBlackboardVariable.update, hpres, hexp, getattr, hv, hm, beq_iff_eq]

/-- Witness for C1 at a concrete store: variable present with value 1,
expected value 1, `invert = false`. -/
theorem c1_equality_decision_witness :
    (CheckBlackboardVariable.update ⟨"check", "x", Value.int 1, false⟩
        (setattr emptyStore "x" (Value.int 1))).2.1 =
      if Blackboard.get Blackboard.init (setattr emptyStore "x" (Value.int 1)) "x" =
          Value.int 1 then
        (if false then Status.FAILURE else Status.SUCCESS)
      else
        (if false then Status.SUCCESS else Status.FAILURE) :=
  c1_equality_decision "check" "x" (Value.int 1) false (setattr emptyStore "x" (Value.int 1))
    (by decide) (by decide)

/-- C2: a `set` with `overwrite = false` on an existing name returns
`false` and leaves the store completely unchanged, so `get` still
returns the first value; on an absent name it stores the value and
returns `true`. -/
theorem c2_no_overwrite_protects (h : Blackboard) (shared : Store) (nm : String)
    (v1 v2 : Value) :
    Blackboard.set h ((Blackboard.set h shared nm v1 true).1) nm v2 false =
      ((Blackboard.set h shared nm v1 true).1, false) ∧
    Blackboard.get h ((Blackboard.set h ((Blackboard.set h shared nm v1 true).1) nm v2 false).1)
      nm = v1 ∧
    (hasattr shared nm = false →
      (Blackboard.set h shared nm v2 false).2 = true ∧
      Blackboard.get h ((Blackboard.set h shared nm v2 false).1) nm = v2) := by
  have hset1 : (Blackboard.set h shared nm v1 true).1 = setattr shared nm v1 := by
    simp [Blackboard.set]
  have hguard : Blackboard.set h ((Blackboard.set h shared nm v1 true).1) nm v2 false =
      ((Blackboard.set h shared nm v1 true).1, false) := by
    rw [hset1]
    simp [Blackboard.set, getattr_setattr_self]
  refine ⟨hguard, ?_, ?_⟩
  · rw [hguard, hset1]
    exact get_setattr_self h shared nm v1
  · intro habs
    have hv : shared nm = Option.none := eq_none_of_not_hasattr shared nm habs
    constructor <;> simp [Blackboard.set, getattr, hv, get_setattr_self, setattr]

/-- Witness for C2 on a concrete, initially absent name: both the
protected-overwrite half and the absent-name half. -/
theorem c2_no_overwrite_protects_witness :
    Blackboard.set Blackboard.init
        ((Blackboard.set Blackboard.init emptyStore "x" (Value.int 1) true).1) "x"
        (Value.int 2) false =
      ((Blackboard.set Blackboard.init emptyStore "x" (Value.int 1) true).1, false) ∧
    Blackboard.get Blackboard.init
      ((Blackboard.set Blackboard.init
          ((Blackboard.set Blackboard.init emptyStore "x" (Value.int 1) true).1) "x"
          (Value.int 2) false).1) "x" = Value.int 1 ∧
    (Blackboard.set Blackboard.init emptyStore "x" (Value.int 2) false).2 = true ∧
    Blackboard.get Blackboard.init
      ((Blackboard.set Blackboard.init emptyStore "x" (Value.int 2) false).1) "x" =
      Value.int 2 :=
  have h := c2_no_overwrite_protects Blackboard.init emptyStore "x" (Value.int 1) (Value.int 2)
  ⟨h.1, h.2.1, (h.2.2 (by decide)).1, (h.2.2 (by decide)).2⟩

/-- C6: `ClearBlackboardVariable.initialise` deletes the variable
unconditionally: afterwards the key is absent; it is idempotent; and
on an already-absent key it is a no-op (the raised `AttributeError` is
swallowed), so it is total for every store. -/
theorem c6_clear_idempotent_total (bname vn : String) (shared : Store) :
    hasattr (ClearBlackboardVariable.initialise ⟨bname, vn⟩ shared) vn = false ∧
    ClearBlackboardVariable.initialise ⟨bname, vn⟩
        (ClearBlackboardVariable.initialise ⟨bname, vn⟩ shared) =
      ClearBlackboardVariable.initialise ⟨bname, vn⟩ shared ∧
    (hasattr shared vn = false → ClearBlackboardVariable.initialise ⟨bname, vn⟩ shared = shared) := by
  cases hv : shared vn with
  | none =>
    have hid : ClearBlackboardVariable.initialise ⟨bname, vn⟩ shared = shared := by
      simp [ClearBlackboardVariable.initialise, delattr, hv]
    refine ⟨?_, ?_, fun _ => hid⟩
    · rw [hid]; simp [hasattr, hv]
    · rw [hid, hid]
  | some v =>
    have hdel : ClearBlackboardVariable.initialise ⟨bname, vn⟩ shared =
        fun n => if n = vn then Option.none else shared n := by
      simp [ClearBlackboardVariable.initialise, delattr, hv]
    have habs2 : (fun n => if n = vn then Option.none else shared n) vn = Option.none := by
      simp
    refine ⟨?_, ?_, ?_⟩
    · rw [hdel]; simp [hasattr]
    · rw [hdel]
      simp [ClearBlackboardVariable.initialise, delattr, habs2]
    · intro habs
      rw [eq_none_of_not_hasattr shared vn habs] at hv
      cases hv

/-- Witness for C6 at a concrete store: clearing a present key removes
it, clearing twice equals clearing once, and clearing the empty store
is a no-op. -/
theorem c6_clear_idempotent_total_witness :
    hasattr (ClearBlackboardVariable.initialise ⟨"clear", "x"⟩
      (setattr emptyStore "x" (Value.int 1))) "x" = false ∧
    ClearBlackboardVariable.initialise ⟨"clear", "x"⟩ emptyStore = emptyStore :=
  ⟨(c6_clear_idempotent_total "clear" "x" (setattr emptyStore "x" (Value.int 1))).1,
   (c6_clear_idempotent_total "clear" "x" emptyStore).2.2 (by decide)⟩

/-- C3 counterexample: `Blackboard.get` returns the very same value —
`None` — for a name that was never set and for a name explicitly set
to `None`, even though the two store states are genuinely different
(witnessed by `hasattr`).  So `get` does conflate "absent" with
"stored as null". -/
theorem c3_counterexample_get_conflates :
    Blackboard.get Blackboard.init emptyStore "x" =
      Blackboard.get Blackboard.init (setattr emptyStore "x" Value.none) "x" ∧
    hasattr emptyStore "x" = false ∧
    hasattr (setattr emptyStore "x" Value.none) "x" = true := by
  refine ⟨?_, by decide, by decide⟩
  simp [Blackboard.get, getattr, setattr, emptyStore]

/-- C3 amended: `Blackboard.get` returns `None` both when the name is
absent and when the name stores `None` — it cannot distinguish the two
states; absence is observable only through `hasattr` (as
`CheckBlackboardVariable.update` does), which differs between the two
states. -/
theorem c3_amended_get_none_in_both_states (h : Blackboard) (shared : Store) (nm : String)
    (habs : hasattr shared nm = false) :
    Blackboard.get h shared nm = Value.none ∧
    Blackboard.get h (setattr shared nm Value.none) nm = Value.none ∧
    hasattr (setattr shared nm Value.none) nm = true := by
  have hv : shared nm = Option.none := eq_none_of_not_hasattr shared nm habs
  exact ⟨by simp [Blackboard.get, getattr, hv],
    get_setattr_self h shared nm Value.none,
    hasattr_setattr_self shared nm Value.none⟩

/-- Witness for the amended C3 at the empty store. -/
theorem c3_amended_get_none_in_both_states_witness :
    Blackboard.get Blackboard.init emptyStore "x" = Value.none ∧
    Blackboard.get Blackboard.init (setattr emptyStore "x" Value.none) "x" = Value.none ∧
    hasattr (setattr emptyStore "x" Value.none) "x" = true :=
  c3_amended_get_none_in_both_states Blackboard.init emptyStore "x" (by decide)

/-- C8 counterexample: the absent-variable branch produces the very
same diagnostic for two different expected values, and that diagnostic
contains neither the expected value's rendering nor the observed
value's rendering; the presence-only branch likewise omits the stored
value.  So not every branch records both values. -/
theorem c8_counterexample_branches_omit_values :
    (CheckBlackboardVariable.update ⟨"check", "x", Value.int 1, false⟩ emptyStore).2.2 =
      (CheckBlackboardVariable.update ⟨"check", "x", Value.int 2, false⟩ emptyStore).2.2 ∧
    strContains ((CheckBlackboardVariable.update ⟨"check", "x", Value.int 1, false⟩
        emptyStore).2.2) ((Value.int 1).pystr) = false ∧
    strContains ((CheckBlackboardVariable.update ⟨"check", "x", Value.none, false⟩
        (setattr emptyStore "x" (Value.int 5))).2.2) ((Value.int 5).pystr) = false := by
  refine ⟨by decide, by decide, by decide⟩

/-- C8 amended: only the equality-comparison branches record both the
observed and the expected value (as `[v: ...][e: ...]`); the
absent-variable branch records only the variable name and the fact it
did not exist, and the presence-only branch records only existence. -/
theorem c8_amended_equality_branches_record (bname vn : String) (expected : Value)
    (inv : Bool) (shared : Store)
    (hpres : hasattr shared vn = true) (hexp : expected ≠ Value.none) :
    strContains ((CheckBlackboardVariable.update ⟨bname, vn, expected, inv⟩ shared).2.2)
      ((Blackboard.get Blackboard.init shared vn).pystr) = true ∧
    strContains ((CheckBlackboardVariable.update ⟨bname, vn, expected, inv⟩ shared).2.2)
      (expected.pystr) = true := by
  obtain ⟨v, hv⟩ := exists_of_hasattr shared vn hpres
  have hget : Blackboard.get Blackboard.init shared vn = v := by
    simp [Blackboard.get, getattr, hv]
  rw [hget]
  by_cases hm : v = expected <;> cases inv <;>
    · simp [CheckBlackboardVariable.update, hpres, hexp, getattr, hv, hm, beq_iff_eq]
      first
        | exact strContains_check_msg_value _ _ _ _ _ _ _
        | exact strContains_check_msg_expected _ _ _ _ _ _ _
        | constructor <;>
            first
              | exact strContains_check_msg_value _ _ _ _ _ _ _
              | exact strContains_check_msg_expected _ _ _ _ _ _ _

/-- Witness for the amended C8: variable stored as 1, expected 2,
`invert = false` — the FAILURE message contains both renderings. -/
theorem c8_amended_equality_branches_record_witness :
    strContains ((CheckBlackboardVariable.update ⟨"check", "x", Value.int 2, false⟩
        (setattr emptyStore "x" (Value.int 1))).2.2)
      ((Blackboard.get Blackboard.init (setattr emptyStore "x" (Value.int 1)) "x").pystr) =
      true ∧
    strContains ((CheckBlackboardVariable.update ⟨"check", "x", Value.int 2, false⟩
        (setattr emptyStore "x" (Value.int 1))).2.2)
      ((Value.int 2).pystr) = true :=
  c8_amended_equality_branches_record "check" "x" (Value.int 2) false
    (setattr emptyStore "x" (Value.int 1)) (by decide) (by decide)

/-- C10 (implicit): storing `None` makes a key present, not absent:
after `SetBlackboardVariable.initialise` with `variable_value = None`,
a presence-only check on the same name returns SUCCESS, even though
`Blackboard.get` on that name returns `None` exactly as it does for a
never-set name. -/
theorem c10_set_none_makes_present (bset bchk vn : String) (inv : Bool)
    (shared other : Store) (habs : hasattr other vn = false) :
    (CheckBlackboardVariable.update ⟨bchk, vn, Value.none, inv⟩
        (SetBlackboardVariable.initialise ⟨bset, vn, Value.none⟩ shared)).2.1 =
      Status.SUCCESS ∧
    Blackboard.get Blackboard.init
      (SetBlackboardVariable.initialise ⟨bset, vn, Value.none⟩ shared) vn = Value.none ∧
    Blackboard.get Blackboard.init other vn = Value.none := by
  have hinit : SetBlackboardVariable.initialise ⟨bset, vn, Value.none⟩ shared =
      setattr shared vn Value.none := by
    simp [SetBlackboardVariable.initialise, Blackboard.set]
  rw [hinit]
  have hother : other vn = Option.none := eq_none_of_not_hasattr other vn habs
  refine ⟨?_, get_setattr_self _ _ _ _, by simp [Blackboard.get, getattr, hother]⟩
  exact c9_presence_only_ignores_invert bchk vn inv (setattr shared vn Value.none)
    (hasattr_setattr_self shared vn Value.none)

/-- Witness for C10 at the empty store, with `invert = true`. -/
theorem c10_set_none_makes_present_witness :
    (CheckBlackboardVariable.update ⟨"check", "x", Value.none, true⟩
        (SetBlackboardVariable.initialise ⟨"set", "x", Value.none⟩ emptyStore)).2.1 =
      Status.SUCCESS ∧
    Blackboard.get Blackboard.init
      (SetBlackboardVariable.initialise ⟨"set", "x", Value.none⟩ emptyStore) "x" =
      Value.none ∧
    Blackboard.get Blackboard.init emptyStore "x" = Value.none :=
  c10_set_none_makes_present "set" "check" "x" true emptyStore emptyStore (by decide)
